import Mathlib

/-!
Shallow embedding of `src/server.go` (package `server`), a mock HTTP
server used by test suites: it records inbound GET/POST requests and
serves canned responses keyed by request shape.

Modelling choices, all taken from the Go source and the documented
behaviour of its standard-library collaborators:

* A Go map is `Option` of an association list with unique keys: `none` is
  a nil map (reads yield the zero value, writes panic), `some l` an
  initialized map. A write removes any previous binding for the key and
  appends the new one; since keys stay unique and no code depends on
  iteration order (Go map order is unspecified), this has exactly the Go
  map's read/write semantics.
* `net/http.ResponseWriter`: `WriteHeader` commits the status code with a
  snapshot of the current header map; per its documentation, changing the
  header map after `WriteHeader` or `Write` has no effect on what is sent.
  `Write` commits status 200 first when nothing has been committed yet.
* `r.FormFile("file")` and `ioutil.ReadAll` are performed by the standard
  library; a request carries the extraction outcome as a field. When
  `FormFile` fails it returns a nil `multipart.File`, and `ReadAll` of a
  nil reader dereferences a nil interface and panics; `ReadAll` of a file
  that `FormFile` did return succeeds, so the source's second error branch
  is unreachable.
-/

namespace GoTestServer

/-- Reasons a Go runtime panic arises in the embedded code: assigning into
a nil map, or calling a method on a nil interface value. -/
inductive PanicReason where
  | nilMapWrite
  | nilPointerDeref
  deriving DecidableEq, Repr

/-- Outcome of a Go computation that may panic. -/
inductive GoResult (α : Type) where
  | ok (a : α)
  | panicked (r : PanicReason)
  deriving DecidableEq, Repr

/-- First binding for a key in an association list, the Go map lookup. -/
def assocFind (k : String) : List (String × α) → Option α
  | [] => none
  | (k', v) :: t => if k' = k then some v else assocFind k t

/-- Drop every binding for a key. -/
def assocRemove (k : String) : List (String × α) → List (String × α)
  | [] => []
  | (k', v) :: t => if k' = k then assocRemove k t else (k', v) :: assocRemove k t

/-- Number of bindings an association list holds for a key. -/
def assocCount (k : String) : List (String × α) → Nat
  | [] => 0
  | (k', _) :: t => (if k' = k then 1 else 0) + assocCount k t

/-- A Go map value: `none` is the nil map, `some l` an initialized map. -/
abbrev GoMap (α : Type) : Type := Option (List (String × α))

/-- Reading `m[k]`: a missing key, also in a nil map, yields no value (the
caller takes the type's zero value). -/
def GoMap.read (m : GoMap α) (k : String) : Option α :=
  match m with
  | none => none
  | some l => assocFind k l

/-- Writing `m[k] = v`: assigning into a nil map panics; otherwise the
previous binding for the key, if any, is replaced. -/
def GoMap.write (m : GoMap α) (k : String) (v : α) : GoResult (GoMap α) :=
  match m with
  | none => .panicked .nilMapWrite
  | some l => .ok (some (assocRemove k l ++ [(k, v)]))

instance : DecidableEq (Except String String) := fun a b =>
  match a, b with
  | .ok x, .ok y => if h : x = y then .isTrue (by rw [h]) else .isFalse (by simp [h])
  | .error x, .error y =>
    if h : x = y then .isTrue (by rw [h]) else .isFalse (by simp [h])
  | .ok _, .error _ => .isFalse (by simp)
  | .error _, .ok _ => .isFalse (by simp)

/-- An inbound `net/http.Request`, holding the fields the server reads.
`formFile` is the outcome of `r.FormFile("file")` as computed by net/http
(an external collaborator): `.ok c` gives the contents of the multipart
file field named "file", `.error e` the text `err.Error()` of the parse
error when the field cannot be extracted. -/
structure HttpRequest where
  method : String
  path : String
  rawQuery : String
  formFile : Except String String
  deriving DecidableEq, Repr

/-- State of a `net/http.ResponseWriter`. `headerMap` is the map the
handler mutates through `Header()`; `committed` records the status code
and the header snapshot once `WriteHeader` has run (later header changes
are not sent); `bodyWritten` accumulates the bytes passed to `Write`. -/
structure ResponseWriter where
  headerMap : List (String × String)
  committed : Option (Nat × List (String × String))
  bodyWritten : String
  deriving DecidableEq, Repr

/-- The fresh writer handed to a handler for each request. -/
def ResponseWriter.init : ResponseWriter := ⟨[], none, ""⟩

/-- `w.WriteHeader(code)`: commits the status with a snapshot of the
current headers; a second call changes nothing. -/
def ResponseWriter.writeHeader (w : ResponseWriter) (code : Nat) : ResponseWriter :=
  match w.committed with
  | some _ => w
  | none => { w with committed := some (code, w.headerMap) }

/-- `w.Header().Add(k, v)`: appends to the handler's header map (with no
effect on an already committed snapshot). -/
def ResponseWriter.headerAdd (w : ResponseWriter) (k v : String) : ResponseWriter :=
  { w with headerMap := w.headerMap ++ [(k, v)] }

/-- `w.Header().Set(k, v)`: replaces the bindings for the key. -/
def ResponseWriter.headerSet (w : ResponseWriter) (k v : String) : ResponseWriter :=
  { w with headerMap := assocRemove k w.headerMap ++ [(k, v)] }

/-- `w.Write(b)`: commits status 200 first when nothing is committed yet,
then appends the bytes to the body. -/
def ResponseWriter.write (w : ResponseWriter) (s : String) : ResponseWriter :=
  let w' := w.writeHeader 200
  { w' with bodyWritten := w'.bodyWritten ++ s }

/-- The status line the client receives. -/
def ResponseWriter.status (w : ResponseWriter) : Nat :=
  match w.committed with
  | some (c, _) => c
  | none => 200

/-- The headers the client receives: the snapshot taken when the status
was committed. -/
def ResponseWriter.sentHeaders (w : ResponseWriter) : List (String × String) :=
  match w.committed with
  | some (_, h) => h
  | none => w.headerMap

/-- `http.Error(w, error, code)` from net/http: sets plain-text headers,
writes the status code, then the message followed by a newline
(`fmt.Fprintln`). -/
def httpError (w : ResponseWriter) (msg : String) (code : Nat) : ResponseWriter :=
  (((w.headerSet "Content-Type" "text/plain; charset=utf-8").headerSet
      "X-Content-Type-Options" "nosniff").writeHeader code).write (msg ++ "\n")

/-- The `_Response` struct: a canned response. -/
structure Response where
  StatusCode : Nat
  Body : String
  deriving DecidableEq, Repr

/-- The `_Server` struct. `server` models the `*httptest.Server` handle:
`none` while `Open` was never called, `some closed` once opened, `closed`
recording whether the listener was closed. `url` is the parsed base URL. -/
structure ServerState where
  server : Option Bool
  url : Option String
  httpGETRequests : GoMap (List HttpRequest)
  httpGETResponses : GoMap Response
  httpPOSTRequests : GoMap (List HttpRequest)
  httpPOSTResponses : GoMap Response
  deriving DecidableEq, Repr

/-- `New()`: a `_Server` with every field zero-valued — the handle, the
URL and all four maps are nil. -/
def New : ServerState :=
  { server := none, url := none,
    httpGETRequests := none, httpGETResponses := none,
    httpPOSTRequests := none, httpPOSTResponses := none }

/-- `Close()`: a no-op returning nil when the server was never opened;
otherwise closes the listener (`httptest.Server.Close` is itself safe to
repeat) and returns nil. The second component is the returned error. -/
def Close (s : ServerState) : ServerState × Option String :=
  match s.server with
  | none => (s, none)
  | some _ => ({ s with server := some true }, none)

/-- `GetGETRequests(key)`: the slice at the key, the empty slice when the
key is missing or the map nil. -/
def GetGETRequests (s : ServerState) (key : String) : List HttpRequest :=
  (s.httpGETRequests.read key).getD []

/-- `GetPOSTRequests(key)`: same, for the POST side. -/
def GetPOSTRequests (s : ServerState) (key : String) : List HttpRequest :=
  (s.httpPOSTRequests.read key).getD []

/-- `Reset()`: replaces the four maps with fresh empty maps; the listener
handle and the URL are untouched. -/
def Reset (s : ServerState) : ServerState :=
  { s with
    httpGETResponses := some []
    httpPOSTResponses := some []
    httpGETRequests := some []
    httpPOSTRequests := some [] }

/-- `SetGETResponseBody(key, responseBody)`: stores a response with status
`http.StatusOK` (200) and the body in `httpGETResponses` (a map write,
panicking when the map is nil). -/
def SetGETResponseBody (s : ServerState) (key responseBody : String) :
    GoResult ServerState :=
  match s.httpGETResponses.write key ⟨200, responseBody⟩ with
  | .panicked r => .panicked r
  | .ok m => .ok { s with httpGETResponses := m }

/-- `SetPOSTResponseBody(key, responseBody)`: same, into `httpPOSTResponses`. -/
def SetPOSTResponseBody (s : ServerState) (key responseBody : String) :
    GoResult ServerState :=
  match s.httpPOSTResponses.write key ⟨200, responseBody⟩ with
  | .panicked r => .panicked r
  | .ok m => .ok { s with httpPOSTResponses := m }

/-- What a handler leaves behind: the server state and writer as at normal
completion or at the panic that aborted it. -/
structure HandlerOutcome where
  state : ServerState
  writer : ResponseWriter
  panic : Option PanicReason
  deriving DecidableEq, Repr

/-- `handleGetRequest`: key = path + "?" + raw query; append the request
to `httpGETRequests[key]` (a write, panicking on a nil map); then either
the 404 miss response or the configured response — status written first,
the `Content-Type: application/json` header added only afterwards. -/
def handleGetRequest (s : ServerState) (w : ResponseWriter) (r : HttpRequest) :
    HandlerOutcome :=
  let key := r.path ++ "?" ++ r.rawQuery
  match s.httpGETRequests.write key ((s.httpGETRequests.read key).getD [] ++ [r]) with
  | .panicked p => ⟨s, w, some p⟩
  | .ok m =>
    let s' := { s with httpGETRequests := m }
    let w' :=
      match s'.httpGETResponses.read key with
      | none => (w.writeHeader 404).write ("No httpGETResponse for '" ++ key ++ "'")
      | some response =>
        ((w.writeHeader response.StatusCode).headerAdd
          "Content-Type" "application/json").write response.Body
    ⟨s', w', none⟩

/-- `handlePostRequest`: extract the multipart file field "file"; on
failure write a 500 via `http.Error` and fall through (no return), so the
following `ioutil.ReadAll` reads the nil file and panics. On success, key
= path + "?" + raw query + " " + file contents; append the request to
`httpPOSTRequests[key]`; then the 404 miss response or the configured
response, written as on the GET side. -/
def handlePostRequest (s : ServerState) (w : ResponseWriter) (r : HttpRequest) :
    HandlerOutcome :=
  let fileAndWriter : Option String × ResponseWriter :=
    match r.formFile with
    | .error e => (none, httpError w e 500)
    | .ok c => (some c, w)
  match fileAndWriter with
  | (none, w') => ⟨s, w', some .nilPointerDeref⟩
  | (some body, w') =>
    let key := r.path ++ "?" ++ r.rawQuery ++ " " ++ body
    match s.httpPOSTRequests.write key
        ((s.httpPOSTRequests.read key).getD [] ++ [r]) with
    | .panicked p => ⟨s, w', some p⟩
    | .ok m =>
      let s' := { s with httpPOSTRequests := m }
      let w'' :=
        match s'.httpPOSTResponses.read key with
        | none => (w'.writeHeader 404).write ("No httpPOSTResponse for '" ++ key ++ "'")
        | some response =>
          ((w'.writeHeader response.StatusCode).headerAdd
            "Content-Type" "application/json").write response.Body
      ⟨s', w'', none⟩

/-- `handleRequest`: dispatch on the method; any method other than GET and
POST receives no handling at all. -/
def handleRequest (s : ServerState) (w : ResponseWriter) (r : HttpRequest) :
    HandlerOutcome :=
  if r.method = "GET" then handleGetRequest s w r
  else if r.method = "POST" then handlePostRequest s w r
  else ⟨s, w, none⟩

/-- Looking a key up right after writing it finds the written value. -/
theorem assocFind_write_self (k : String) (v : α) (l : List (String × α)) :
    assocFind k (assocRemove k l ++ [(k, v)]) = some v := by
  induction l with
  | nil => simp [assocRemove, assocFind]
  | cons hd tl ih =>
    obtain ⟨k', v'⟩ := hd
    by_cases h : k' = k
    · simpa [assocRemove, h] using ih
    · simp [assocRemove, assocFind, h, ih]

/-- After writing a key, the list holds exactly one binding for it. -/
theorem assocCount_write_self (k : String) (v : α) (l : List (String × α)) :
    assocCount k (assocRemove k l ++ [(k, v)]) = 1 := by
  induction l with
  | nil => simp [assocRemove, assocCount]
  | cons hd tl ih =>
    obtain ⟨k', v'⟩ := hd
    by_cases h : k' = k
    · simpa [assocRemove, h] using ih
    · simp [assocRemove, assocCount, h, ih]

/-- Claim C7: for every key under which no request was ever recorded,
`GetGETRequests` and `GetPOSTRequests` return the empty sequence (the
functions are total, so no error is possible). -/
theorem C7_never_seen_empty (s : ServerState) (k : String)
    (hg : GoMap.read s.httpGETRequests k = none)
    (hp : GoMap.read s.httpPOSTRequests k = none) :
    GetGETRequests s k = [] ∧ GetPOSTRequests s k = [] := by
  simp [GetGETRequests, GetPOSTRequests, hg, hp]

/-- Witness for C7 at the freshly constructed server and key "/never". -/
theorem C7_never_seen_empty_witness :
    GetGETRequests New "/never" = [] ∧ GetPOSTRequests New "/never" = [] :=
  C7_never_seen_empty New "/never" rfl rfl

/-- Claim C8: `Close()` returns a nil error in every state — never opened,
open, or already closed — and twice in a row; being a total function of
the state, it cannot panic. -/
theorem C8_close_idempotent (s : ServerState) :
    (Close s).2 = none ∧ (Close (Close s).1).2 = none := by
  cases h : s.server <;> simp [Close, h]

/-- Claim C4: `Reset()` replaces all four mappings with empty ones, leaves
the listener handle and the URL (the only other fields) unchanged, and a
subsequent GET to any key — in particular any previously configured one —
receives a 404 with the miss message. -/
theorem C4_reset_clears (s : ServerState) (r : HttpRequest) :
    (Reset s).httpGETRequests = some [] ∧
    (Reset s).httpGETResponses = some [] ∧
    (Reset s).httpPOSTRequests = some [] ∧
    (Reset s).httpPOSTResponses = some [] ∧
    (Reset s).server = s.server ∧
    (Reset s).url = s.url ∧
    (handleGetRequest (Reset s) ResponseWriter.init r).panic = none ∧
    (handleGetRequest (Reset s) ResponseWriter.init r).writer.status = 404 ∧
    (handleGetRequest (Reset s) ResponseWriter.init r).writer.bodyWritten =
      "No httpGETResponse for '" ++ (r.path ++ "?" ++ r.rawQuery) ++ "'" := by
  simp [Reset, handleGetRequest, GoMap.write, GoMap.read, assocFind, assocRemove,
    ResponseWriter.init, ResponseWriter.writeHeader, ResponseWriter.write,
    ResponseWriter.status]

/-- Claim C1 as stated is false: after `SetGETResponseBody("/a?", "B")` on
a reset server, a GET decomposing to key "/a?" is answered with status 200
and body "B", but the `Content-Type: application/json` header is NOT among
the headers sent to the client, because the handler adds it only after
`WriteHeader` has committed the status with a snapshot of the (then empty)
header map. -/
theorem C1_counterexample :
    SetGETResponseBody (Reset New) "/a?" "B" =
      .ok { Reset New with httpGETResponses := some [("/a?", ⟨200, "B"⟩)] } ∧
    (handleGetRequest
        { Reset New with httpGETResponses := some [("/a?", ⟨200, "B"⟩)] }
        ResponseWriter.init ⟨"GET", "/a", "", Except.ok ""⟩).panic = none ∧
    (handleGetRequest
        { Reset New with httpGETResponses := some [("/a?", ⟨200, "B"⟩)] }
        ResponseWriter.init ⟨"GET", "/a", "", Except.ok ""⟩).writer.status = 200 ∧
    (handleGetRequest
        { Reset New with httpGETResponses := some [("/a?", ⟨200, "B"⟩)] }
        ResponseWriter.init ⟨"GET", "/a", "", Except.ok ""⟩).writer.bodyWritten
      = "B" ∧
    ("Content-Type", "application/json") ∉
      (handleGetRequest
        { Reset New with httpGETResponses := some [("/a?", ⟨200, "B"⟩)] }
        ResponseWriter.init ⟨"GET", "/a", "", Except.ok ""⟩).writer.sentHeaders := by
  decide

/-- Claim C1 (amended): for every key k and body b, after
`SetGETResponseBody(k, b)` succeeds on a server whose maps are
initialized, a GET decomposing to key k is answered without panic, with
status 200 and body exactly b; the `Content-Type: application/json`
header, added only after the status is committed, is not among the sent
headers. -/
theorem C1_get_hit (s s' : ServerState) (k b : String) (r : HttpRequest)
    (m : List (String × List HttpRequest))
    (hreq : s.httpGETRequests = some m)
    (hset : SetGETResponseBody s k b = .ok s')
    (hkey : r.path ++ "?" ++ r.rawQuery = k) :
    (handleGetRequest s' ResponseWriter.init r).panic = none ∧
    (handleGetRequest s' ResponseWriter.init r).writer.status = 200 ∧
    (handleGetRequest s' ResponseWriter.init r).writer.bodyWritten = b ∧
    ("Content-Type", "application/json") ∉
      (handleGetRequest s' ResponseWriter.init r).writer.sentHeaders := by
  cases hresp : s.httpGETResponses with
  | none => simp [SetGETResponseBody, GoMap.write, hresp] at hset
  | some l =>
    simp only [SetGETResponseBody, GoMap.write, hresp] at hset
    rw [GoResult.ok.injEq] at hset
    subst hset
    simp [handleGetRequest, GoMap.write, GoMap.read, hreq, hkey,
      assocFind_write_self, ResponseWriter.writeHeader, ResponseWriter.headerAdd,
      ResponseWriter.write, ResponseWriter.status, ResponseWriter.sentHeaders,
      ResponseWriter.init]

/-- Witness for C1 (amended) at key "/b?q=1" and body "W". -/
theorem C1_get_hit_witness :
    (handleGetRequest
        { Reset New with httpGETResponses := some [("/b?q=1", ⟨200, "W"⟩)] }
        ResponseWriter.init ⟨"GET", "/b", "q=1", Except.ok ""⟩).panic = none ∧
    (handleGetRequest
        { Reset New with httpGETResponses := some [("/b?q=1", ⟨200, "W"⟩)] }
        ResponseWriter.init ⟨"GET", "/b", "q=1", Except.ok ""⟩).writer.status = 200 :=
  have h := C1_get_hit (Reset New)
    { Reset New with httpGETResponses := some [("/b?q=1", ⟨200, "W"⟩)] }
    "/b?q=1" "W" ⟨"GET", "/b", "q=1", Except.ok ""⟩ [] rfl rfl rfl
  ⟨h.1, h.2.1⟩

/-- Claim C6: a GET whose computed key has no configured response is
answered with status 404 and body exactly the miss message naming the key. -/
theorem C6_get_miss (s : ServerState) (k : String) (r : HttpRequest)
    (m : List (String × List HttpRequest))
    (hm : s.httpGETRequests = some m)
    (hk : r.path ++ "?" ++ r.rawQuery = k)
    (hmiss : GoMap.read s.httpGETResponses k = none) :
    (handleGetRequest s ResponseWriter.init r).panic = none ∧
    (handleGetRequest s ResponseWriter.init r).writer.status = 404 ∧
    (handleGetRequest s ResponseWriter.init r).writer.bodyWritten =
      "No httpGETResponse for '" ++ k ++ "'" := by
  simp [handleGetRequest, GoMap.write, hm, hk, hmiss,
    ResponseWriter.init, ResponseWriter.writeHeader, ResponseWriter.write,
    ResponseWriter.status]

/-- Witness for C6 at a reset server and key "/miss?x=2". -/
theorem C6_get_miss_witness :
    (handleGetRequest (Reset New) ResponseWriter.init
        ⟨"GET", "/miss", "x=2", Except.ok ""⟩).writer.status = 404 ∧
    (handleGetRequest (Reset New) ResponseWriter.init
        ⟨"GET", "/miss", "x=2", Except.ok ""⟩).writer.bodyWritten =
      "No httpGETResponse for '/miss?x=2'" :=
  have h := C6_get_miss (Reset New) "/miss?x=2"
    ⟨"GET", "/miss", "x=2", Except.ok ""⟩ [] rfl rfl rfl
  ⟨h.2.1, h.2.2⟩

/-- Claim C2: when the multipart file field "file" cannot be extracted,
the handler writes a 500 response whose body is the error's text (rendered
by `http.Error`, which appends a newline), and execution continues past
that write instead of returning: it reaches the `ReadAll` of the nil file,
which panics. -/
theorem C2_post_file_error (s : ServerState) (r : HttpRequest) (e : String)
    (he : r.formFile = Except.error e) :
    (handlePostRequest s ResponseWriter.init r).writer.status = 500 ∧
    (handlePostRequest s ResponseWriter.init r).writer.bodyWritten = e ++ "\n" ∧
    (handlePostRequest s ResponseWriter.init r).panic = some .nilPointerDeref := by
  simp [handlePostRequest, he, httpError, ResponseWriter.headerSet,
    ResponseWriter.writeHeader, ResponseWriter.write, ResponseWriter.init,
    ResponseWriter.status, assocRemove]

/-- Witness for C2 at a POST whose extraction fails with text "bad". -/
theorem C2_post_file_error_witness :
    (handlePostRequest New ResponseWriter.init
        ⟨"POST", "/u", "", Except.error "bad"⟩).writer.status = 500 ∧
    (handlePostRequest New ResponseWriter.init
        ⟨"POST", "/u", "", Except.error "bad"⟩).writer.bodyWritten = "bad" ++ "\n" :=
  have h := C2_post_file_error New ⟨"POST", "/u", "", Except.error "bad"⟩ "bad" rfl
  ⟨h.1, h.2.1⟩

/-- Claim C3: a POST carrying multipart file contents c is keyed by
path + "?" + raw query + " " + c; the request is recorded under that key,
and when a response was registered under exactly that key the client
receives status 200 and the configured body. -/
theorem C3_post_hit (s s' : ServerState) (k b c : String) (r : HttpRequest)
    (m : List (String × List HttpRequest))
    (hreq : s.httpPOSTRequests = some m)
    (hfile : r.formFile = Except.ok c)
    (hkey : r.path ++ "?" ++ r.rawQuery ++ " " ++ c = k)
    (hset : SetPOSTResponseBody s k b = .ok s') :
    (handlePostRequest s' ResponseWriter.init r).panic = none ∧
    (handlePostRequest s' ResponseWriter.init r).writer.status = 200 ∧
    (handlePostRequest s' ResponseWriter.init r).writer.bodyWritten = b ∧
    GetPOSTRequests (handlePostRequest s' ResponseWriter.init r).state k =
      GetPOSTRequests s k ++ [r] := by
  cases hresp : s.httpPOSTResponses with
  | none => simp [SetPOSTResponseBody, GoMap.write, hresp] at hset
  | some l =>
    simp only [SetPOSTResponseBody, GoMap.write, hresp] at hset
    rw [GoResult.ok.injEq] at hset
    subst hset
    simp [handlePostRequest, hfile, GoMap.write, GoMap.read, hreq, hkey,
      assocFind_write_self, GetPOSTRequests, ResponseWriter.writeHeader,
      ResponseWriter.headerAdd, ResponseWriter.write, ResponseWriter.status,
      ResponseWriter.init]

/-- Witness for C3: the spec's example — file contents "hello", path
"/upload", empty query, a response "ok" registered under "/upload? hello". -/
theorem C3_post_hit_witness :
    (handlePostRequest
        { Reset New with httpPOSTResponses := some [("/upload? hello", ⟨200, "ok"⟩)] }
        ResponseWriter.init ⟨"POST", "/upload", "", Except.ok "hello"⟩).writer.status
      = 200 ∧
    (handlePostRequest
        { Reset New with httpPOSTResponses := some [("/upload? hello", ⟨200, "ok"⟩)] }
        ResponseWriter.init
        ⟨"POST", "/upload", "", Except.ok "hello"⟩).writer.bodyWritten = "ok" :=
  have h := C3_post_hit (Reset New)
    { Reset New with httpPOSTResponses := some [("/upload? hello", ⟨200, "ok"⟩)] }
    "/upload? hello" "ok" "hello" ⟨"POST", "/upload", "", Except.ok "hello"⟩
    [] rfl rfl rfl rfl
  ⟨h.2.1, h.2.2.1⟩

/-- Claim C5: each handled GET is appended to the captured sequence under
its computed key — never replacing or deduplicating earlier entries — so
two sequential GETs decomposing to the same key k, starting from a state
with no capture under k, leave `GetGETRequests(k) = [r1, r2]`: length 2,
arrival order. -/
theorem C5_capture_append (s : ServerState) (k : String) (r1 r2 : HttpRequest)
    (m : List (String × List HttpRequest))
    (hm : s.httpGETRequests = some m)
    (h1 : r1.path ++ "?" ++ r1.rawQuery = k)
    (h2 : r2.path ++ "?" ++ r2.rawQuery = k)
    (hstart : GetGETRequests s k = []) :
    (handleGetRequest s ResponseWriter.init r1).panic = none ∧
    GetGETRequests (handleGetRequest s ResponseWriter.init r1).state k =
      GetGETRequests s k ++ [r1] ∧
    (handleGetRequest (handleGetRequest s ResponseWriter.init r1).state
        ResponseWriter.init r2).panic = none ∧
    GetGETRequests (handleGetRequest (handleGetRequest s ResponseWriter.init r1).state
        ResponseWriter.init r2).state k = [r1, r2] ∧
    (GetGETRequests (handleGetRequest (handleGetRequest s ResponseWriter.init r1).state
        ResponseWriter.init r2).state k).length = 2 := by
  simp [handleGetRequest, GoMap.write, GoMap.read, hm, h1, h2, GetGETRequests,
    assocFind_write_self, hstart] at hstart ⊢
  simp [hstart]

/-- Witness for C5: two GETs for "/p?a=1" on a reset server. -/
theorem C5_capture_append_witness :
    GetGETRequests
      (handleGetRequest
        (handleGetRequest (Reset New) ResponseWriter.init
          ⟨"GET", "/p", "a=1", Except.ok ""⟩).state
        ResponseWriter.init ⟨"GET", "/p", "a=1", Except.ok "x"⟩).state "/p?a=1"
      = [⟨"GET", "/p", "a=1", Except.ok ""⟩, ⟨"GET", "/p", "a=1", Except.ok "x"⟩] :=
  (C5_capture_append (Reset New) "/p?a=1" ⟨"GET", "/p", "a=1", Except.ok ""⟩
    ⟨"GET", "/p", "a=1", Except.ok "x"⟩ [] rfl rfl rfl rfl).2.2.2.1

/-- Claim C9: re-registering a key overwrites — after setting b1 then b2
under the same key, the mapping holds exactly one binding for the key,
with body b2 — for the GET and the POST mapping alike; and the two
mappings are independent: a GET registration leaves the POST mapping
untouched and vice versa, so identical key text never collides. -/
theorem C9_last_write_wins (s s1 s2 t1 t2 : ServerState) (k b1 b2 : String)
    (h1 : SetGETResponseBody s k b1 = .ok s1)
    (h2 : SetGETResponseBody s1 k b2 = .ok s2)
    (p1 : SetPOSTResponseBody s k b1 = .ok t1)
    (p2 : SetPOSTResponseBody t1 k b2 = .ok t2) :
    GoMap.read s2.httpGETResponses k = some ⟨200, b2⟩ ∧
    (∀ l, s2.httpGETResponses = some l → assocCount k l = 1) ∧
    GoMap.read t2.httpPOSTResponses k = some ⟨200, b2⟩ ∧
    (∀ l, t2.httpPOSTResponses = some l → assocCount k l = 1) ∧
    s2.httpPOSTResponses = s.httpPOSTResponses ∧
    t2.httpGETResponses = s.httpGETResponses := by
  cases hg : s.httpGETResponses with
  | none => simp [SetGETResponseBody, GoMap.write, hg] at h1
  | some lg =>
    cases hp : s.httpPOSTResponses with
    | none => simp [SetPOSTResponseBody, GoMap.write, hp] at p1
    | some lp =>
      simp only [SetGETResponseBody, GoMap.write, hg] at h1
      rw [GoResult.ok.injEq] at h1
      subst h1
      simp only [SetGETResponseBody, GoMap.write] at h2
      rw [GoResult.ok.injEq] at h2
      subst h2
      simp only [SetPOSTResponseBody, GoMap.write, hp] at p1
      rw [GoResult.ok.injEq] at p1
      subst p1
      simp only [SetPOSTResponseBody, GoMap.write] at p2
      rw [GoResult.ok.injEq] at p2
      subst p2
      simp [GoMap.read, assocFind_write_self, assocCount_write_self, hg, hp]

/-- Witness for C9 at key "/k?" with bodies "one" and "two" on a reset
server. -/
theorem C9_last_write_wins_witness :
    GoMap.read
      { Reset New with httpGETResponses := some [("/k?", ⟨200, "two"⟩)]
        }.httpGETResponses "/k?" = some ⟨200, "two"⟩ :=
  (C9_last_write_wins (Reset New)
    { Reset New with httpGETResponses := some [("/k?", ⟨200, "one"⟩)] }
    { Reset New with httpGETResponses := some [("/k?", ⟨200, "two"⟩)] }
    { Reset New with httpPOSTResponses := some [("/k?", ⟨200, "one"⟩)] }
    { Reset New with httpPOSTResponses := some [("/k?", ⟨200, "two"⟩)] }
    "/k?" "one" "two" rfl rfl rfl rfl).1

/-- Claim C10 fails as stated: on the never-reset server returned by New,
a POST whose file extraction fails does panic, but by dereferencing the
nil file in `ReadAll` — after writing the 500 — not by writing to a nil
map: its state is left exactly as New, so no map write happened. -/
theorem C10_counterexample :
    (handlePostRequest New ResponseWriter.init
        ⟨"POST", "/u", "", Except.error "bad"⟩).panic = some .nilPointerDeref ∧
    (handlePostRequest New ResponseWriter.init
        ⟨"POST", "/u", "", Except.error "bad"⟩).panic ≠ some .nilMapWrite ∧
    (handlePostRequest New ResponseWriter.init
        ⟨"POST", "/u", "", Except.error "bad"⟩).state = New := by
  decide

/-- Claim C10 (amended): New leaves all four maps nil; before Reset every
configuration call panics on a nil-map write, handling any GET and any
POST whose file field is extracted panics on a nil-map write, and a POST
whose extraction fails panics dereferencing the nil file; Reset
initializes all four maps, so one Reset is the precondition for
configuring and for serving. -/
theorem C10_nil_before_reset (k b cg ce : String) (rg rp rb : HttpRequest)
    (hp : rp.formFile = Except.ok cg)
    (hb : rb.formFile = Except.error ce) :
    New.httpGETRequests = none ∧ New.httpGETResponses = none ∧
    New.httpPOSTRequests = none ∧ New.httpPOSTResponses = none ∧
    SetGETResponseBody New k b = .panicked .nilMapWrite ∧
    SetPOSTResponseBody New k b = .panicked .nilMapWrite ∧
    (handleGetRequest New ResponseWriter.init rg).panic = some .nilMapWrite ∧
    (handlePostRequest New ResponseWriter.init rp).panic = some .nilMapWrite ∧
    (handlePostRequest New ResponseWriter.init rb).panic = some .nilPointerDeref ∧
    (Reset New).httpGETRequests = some [] ∧
    (Reset New).httpGETResponses = some [] ∧
    (Reset New).httpPOSTRequests = some [] ∧
    (Reset New).httpPOSTResponses = some [] := by
  simp [New, Reset, SetGETResponseBody, SetPOSTResponseBody, handleGetRequest,
    handlePostRequest, GoMap.write, GoMap.read, hp, hb, httpError]

/-- Witness for C10 (amended) at concrete requests for each method. -/
theorem C10_nil_before_reset_witness :
    SetGETResponseBody New "k" "b" = .panicked .nilMapWrite ∧
    (handleGetRequest New ResponseWriter.init
        ⟨"GET", "/g", "", Except.ok ""⟩).panic = some .nilMapWrite ∧
    (handlePostRequest New ResponseWriter.init
        ⟨"POST", "/p", "", Except.ok "c"⟩).panic = some .nilMapWrite :=
  have h := C10_nil_before_reset "k" "b" "c" "e"
    ⟨"GET", "/g", "", Except.ok ""⟩ ⟨"POST", "/p", "", Except.ok "c"⟩
    ⟨"POST", "/q", "", Except.error "e"⟩ rfl rfl
  ⟨h.2.2.2.2.1, h.2.2.2.2.2.2.1, h.2.2.2.2.2.2.2.1⟩

end GoTestServer
